import Mathlib

/-!
Shallow embedding of the core of `src/cargo-shuttle/src/lib.rs`:
the local-run orchestrator (`Shuttle::local_run`, lines 248-315), the
build-message printer task it spawns (lines 251-264), and the deploy
outcome classification at the end of `Shuttle::deploy` (lines 339-361).

External calls (`build_crate`, `read_to_string`, toml parsing,
`Loader::from_so_file`, `LocalFactory::new`, `loader.load`,
`handle.await`) are modelled as an environment record holding the
result each call produces during the run; the orchestrator's own
sequencing, error propagation and observable effects are translated
line by line from the source into a trace of events plus a final
result.
-/

/-- Outcome taxonomy, from `pub enum CommandOutcome` (lib.rs lines 419-422). -/
inductive CommandOutcome where
  | Ok
  | DeploymentFailure
deriving DecidableEq, Repr

/-- Modelled from the spec: `shuttle_common::deployment::State` is repository
code outside `src/`; the spec (§3) requires an enumerated set including at
least `Running` and `Crashed` plus other platform-reported states, not
exhaustively modelled.  Only `Crashed` is inspected by the code under `src/`. -/
inductive State where
  | Queued
  | Building
  | Built
  | Loading
  | Running
  | Completed
  | Stopped
  | Crashed
deriving DecidableEq, Repr

/-- The current deployment reported in a service summary: `{id, state}`.
Uuids are modelled as naturals. -/
structure Deployment where
  id : Nat
  state : State
deriving DecidableEq, Repr

/-- Remote-reported service summary: an optional current deployment
(`service.deployment` in lib.rs line 342). -/
structure ServiceSummary where
  deployment : Option Deployment
deriving DecidableEq, Repr

/-- The observable prints of the classification portion of `Shuttle::deploy`
(lib.rs lines 342-361): the fixed message of the id-mismatch branch
(line 344), the service summary itself (line 351), and the fixed message of
the no-deployment branch (line 358). -/
inductive DeployPrint where
  | keptPrevious
  | summary (s : ServiceSummary)
  | notRunning
deriving DecidableEq, Repr

/-- Translation of lib.rs lines 339-361 (the tail of `Shuttle::deploy`, after
`get_service_summary` returned `service`): decides the `CommandOutcome` from
the submitted deployment id and the fetched summary, recording the prints
each branch performs before returning.  The source never errors here: every
branch returns `Ok(outcome)`. -/
def deploy_classify (deploymentId : Nat) (service : ServiceSummary) :
    List DeployPrint × CommandOutcome :=
  match service.deployment with
  | some newDeployment =>
    if newDeployment.id ≠ deploymentId then
      ([DeployPrint.keptPrevious], CommandOutcome.DeploymentFailure)
    else
      ([DeployPrint.summary service],
        match newDeployment.state with
        | State.Crashed => CommandOutcome.DeploymentFailure
        | _ => CommandOutcome.Ok)
  | none => ([DeployPrint.notRunning], CommandOutcome.DeploymentFailure)

/-- The fetch-and-classify step run twice against an unchanged remote summary
(`client.get_service_summary` returning the same `service` both times),
as in the spec's idempotence property. -/
def fetchAndClassifyTwice (remote : ServiceSummary) (deploymentId : Nat) :
    CommandOutcome × CommandOutcome :=
  ((deploy_classify deploymentId remote).2, (deploy_classify deploymentId remote).2)

/-- Modelled from the spec: `cargo_metadata::Message` values carried by the
build relay channel (lib.rs lines 251-264).  `TextLine` carries a plain line,
`CompilerMessage` carries `message.message.rendered : Option String`; every
other variant is collapsed into `Other`, since the consumer's `_ => {}` arm
treats them all alike. -/
inductive Message where
  | TextLine (line : String)
  | CompilerMessage (rendered : Option String)
  | Other
deriving DecidableEq, Repr

/-- One iteration of the printer task's match (lib.rs lines 254-261): the
lines it prints for a single received message. -/
def printMessage : Message → List String
  | Message.TextLine line => [line]
  | Message.CompilerMessage (some rendered) => [rendered]
  | Message.CompilerMessage none => []
  | Message.Other => []

/-- The printer task's loop (lib.rs lines 253-263): `while let Ok(message) =
rx.recv()` consumes, in order, exactly the messages sent before the producer
side of the channel is closed — modelled as the finite list of sent messages —
and terminates when the channel is closed (the end of the list). -/
def printerLoop : List Message → List String
  | [] => []
  | m :: rest => printMessage m ++ printerLoop rest

/-- An IPv4 address, four octets. -/
structure Ipv4Addr where
  a : Nat
  b : Nat
  c : Nat
  d : Nat
deriving DecidableEq, Repr

/-- `Ipv4Addr::LOCALHOST` = 127.0.0.1. -/
def Ipv4Addr.LOCALHOST : Ipv4Addr := ⟨127, 0, 0, 1⟩

/-- A socket address: IP plus port, as built by `SocketAddr::new` in
lib.rs line 295. -/
structure SocketAddr where
  ip : Ipv4Addr
  port : Nat
deriving DecidableEq, Repr

/-- Observable events of one `local_run` (lib.rs lines 248-315), in program
order: spawning the printer task (line 252), calling `build_crate`
(line 274), reading the secrets file (line 280), `Loader::from_so_file`
(line 292), `LocalFactory::new` with the resolved secrets (line 294),
constructing the bind address (line 295), `loader.load` at that address
(line 305), awaiting the service handle (line 307), and releasing the loaded
artifact (line 311 on success; on a failed await the artifact is released by
`so` being dropped when the error propagates). -/
inductive Event where
  | spawnPrinter
  | build
  | readSecrets
  | fromSoFile
  | mkFactory (secrets : List (String × String))
  | mkAddr (addr : SocketAddr)
  | load (addr : SocketAddr)
  | awaitHandle
  | close
deriving DecidableEq, Repr

/-- The per-stage error taxonomy of `local_run`: each `?` in lib.rs
lines 274-307 propagates one of these. -/
inductive RunError where
  | build (e : String)
  | secretsParse (e : String)
  | fromSo (e : String)
  | factory (e : String)
  | load (e : String)
  | join (e : String)
  | service (e : String)
deriving DecidableEq, Repr

/-- The results the external calls of one `local_run` produce, as a record:
`buildResult` is what `build_crate` returns (line 274); `secretsRead` is what
`read_to_string(secrets_path)` returns (line 280); `parseSecrets` is the
composition `secrets_str.parse::<toml::Value>()?.try_into()?` (line 282) on
the read string; `fromSoFile` is `Loader::from_so_file` on the built path
(line 292); `factoryNew` is `LocalFactory::new(name, secrets)` (line 294);
`loadResult` is `loader.load(factory, addr, logger)` at the bind address
(line 305), `.ok ()` meaning a `(handle, so)` pair was obtained; `handleJoin`
is the resolution of `handle.await` (line 307): a join error, or the loaded
service's own `Result`. -/
structure RunEnv where
  buildResult : Except String String
  secretsRead : Except String String
  parseSecrets : String → Except String (List (String × String))
  fromSoFile : String → Except String Unit
  factoryNew : List (String × String) → Except String Unit
  loadResult : SocketAddr → Except String Unit
  handleJoin : Except String (Except String Unit)

/-- Secret resolution (lib.rs lines 279-290): `if let Ok(secrets_str) =
read_to_string(secrets_path)` parses on success and propagates a parse
failure; any read failure (the `else` arm, covering a missing file and every
other read error alike) yields `Default::default()`, the empty mapping. -/
def resolveSecrets (readRes : Except String String)
    (parse : String → Except String (List (String × String))) :
    Except String (List (String × String)) :=
  match readRes with
  | Except.ok secrets_str => parse secrets_str
  | Except.error _ => Except.ok []

/-- Line-by-line translation of `Shuttle::local_run` (lib.rs lines 248-315)
over a `RunEnv` of external-call results: returns the trace of observable
events in order, and the function's `Result`.  Each `?` aborts with the
corresponding `RunError`.  After a successful `loader.load`, a failed
`handle.await??` propagates the error, dropping `so` — Rust's drop of the
loaded library releases it, after the await has resolved — so the error
paths after `awaitHandle` also record `close`; on success `close` is the
explicitly spawned `so.close()` (line 311). -/
def local_run (env : RunEnv) (port : Nat) : List Event × Except RunError Unit :=
  let t0 := [Event.spawnPrinter, Event.build]
  match env.buildResult with
  | Except.error e => (t0, Except.error (RunError.build e))
  | Except.ok so_path =>
    let t1 := t0 ++ [Event.readSecrets]
    match resolveSecrets env.secretsRead env.parseSecrets with
    | Except.error e => (t1, Except.error (RunError.secretsParse e))
    | Except.ok secrets =>
      let t2 := t1 ++ [Event.fromSoFile]
      match env.fromSoFile so_path with
      | Except.error e => (t2, Except.error (RunError.fromSo e))
      | Except.ok _ =>
        let t3 := t2 ++ [Event.mkFactory secrets]
        match env.factoryNew secrets with
        | Except.error e => (t3, Except.error (RunError.factory e))
        | Except.ok _ =>
          let addr := SocketAddr.mk Ipv4Addr.LOCALHOST port
          let t4 := t3 ++ [Event.mkAddr addr, Event.load addr]
          match env.loadResult addr with
          | Except.error e => (t4, Except.error (RunError.load e))
          | Except.ok _ =>
            let t5 := t4 ++ [Event.awaitHandle]
            match env.handleJoin with
            | Except.error e => (t5 ++ [Event.close], Except.error (RunError.join e))
            | Except.ok (Except.error e) =>
              (t5 ++ [Event.close], Except.error (RunError.service e))
            | Except.ok (Except.ok _) => (t5 ++ [Event.close], Except.ok ())

/-- The result `local_run` returns once `loader.load` has succeeded, as a
function of how `handle.await` resolves (lib.rs line 307): a join error and a
service error each propagate through one of the two `?`. -/
def handleOutcome : Except String (Except String Unit) → Except RunError Unit
  | Except.error e => Except.error (RunError.join e)
  | Except.ok (Except.error e) => Except.error (RunError.service e)
  | Except.ok (Except.ok _) => Except.ok ()

/-- The events of a run that has reached `loader.load`: everything up to and
including the `load` call, in the order of lib.rs lines 252-305. -/
def runPrelude (secrets : List (String × String)) (addr : SocketAddr) : List Event :=
  [Event.spawnPrinter, Event.build, Event.readSecrets, Event.fromSoFile,
   Event.mkFactory secrets, Event.mkAddr addr, Event.load addr]

/-- Exhaustive control-flow analysis of `local_run`: one disjunct per abort
point, plus the post-load disjunct in which the result is determined by how
the service handle resolved. -/
theorem local_run_control_flow (env : RunEnv) (port : Nat) :
    (∃ e, env.buildResult = Except.error e ∧
      local_run env port =
        ([Event.spawnPrinter, Event.build], Except.error (RunError.build e))) ∨
    (∃ sp e, env.buildResult = Except.ok sp ∧
      resolveSecrets env.secretsRead env.parseSecrets = Except.error e ∧
      local_run env port =
        ([Event.spawnPrinter, Event.build, Event.readSecrets],
          Except.error (RunError.secretsParse e))) ∨
    (∃ sp s e, env.buildResult = Except.ok sp ∧
      resolveSecrets env.secretsRead env.parseSecrets = Except.ok s ∧
      env.fromSoFile sp = Except.error e ∧
      local_run env port =
        ([Event.spawnPrinter, Event.build, Event.readSecrets, Event.fromSoFile],
          Except.error (RunError.fromSo e))) ∨
    (∃ sp s e, env.buildResult = Except.ok sp ∧
      resolveSecrets env.secretsRead env.parseSecrets = Except.ok s ∧
      env.fromSoFile sp = Except.ok () ∧
      env.factoryNew s = Except.error e ∧
      local_run env port =
        ([Event.spawnPrinter, Event.build, Event.readSecrets, Event.fromSoFile,
          Event.mkFactory s], Except.error (RunError.factory e))) ∨
    (∃ sp s e, env.buildResult = Except.ok sp ∧
      resolveSecrets env.secretsRead env.parseSecrets = Except.ok s ∧
      env.fromSoFile sp = Except.ok () ∧
      env.factoryNew s = Except.ok () ∧
      env.loadResult (SocketAddr.mk Ipv4Addr.LOCALHOST port) = Except.error e ∧
      local_run env port =
        (runPrelude s (SocketAddr.mk Ipv4Addr.LOCALHOST port),
          Except.error (RunError.load e))) ∨
    (∃ sp s, env.buildResult = Except.ok sp ∧
      resolveSecrets env.secretsRead env.parseSecrets = Except.ok s ∧
      env.fromSoFile sp = Except.ok () ∧
      env.factoryNew s = Except.ok () ∧
      env.loadResult (SocketAddr.mk Ipv4Addr.LOCALHOST port) = Except.ok () ∧
      local_run env port =
        (runPrelude s (SocketAddr.mk Ipv4Addr.LOCALHOST port) ++
            [Event.awaitHandle, Event.close],
          handleOutcome env.handleJoin)) := by
  obtain ⟨br, sr, ps, fso, fn, lr, hj⟩ := env
  cases br with
  | error e => exact Or.inl ⟨e, rfl, rfl⟩
  | ok sp =>
    cases hs : resolveSecrets sr ps with
    | error e =>
      refine Or.inr (Or.inl ⟨sp, e, rfl, rfl, ?_⟩)
      simp [local_run, hs]
    | ok s =>
      cases hf : fso sp with
      | error e =>
        refine Or.inr (Or.inr (Or.inl ⟨sp, s, e, rfl, rfl, hf, ?_⟩))
        simp [local_run, hs, hf]
      | ok uf =>
        cases hn : fn s with
        | error e =>
          refine Or.inr (Or.inr (Or.inr (Or.inl ⟨sp, s, e, rfl, rfl, hf, hn, ?_⟩)))
          simp [local_run, hs, hf, hn]
        | ok un =>
          cases hl : lr (SocketAddr.mk Ipv4Addr.LOCALHOST port) with
          | error e =>
            refine Or.inr (Or.inr (Or.inr (Or.inr (Or.inl
              ⟨sp, s, e, rfl, rfl, hf, hn, hl, ?_⟩))))
            simp [local_run, hs, hf, hn, hl, runPrelude]
          | ok ul =>
            refine Or.inr (Or.inr (Or.inr (Or.inr (Or.inr
              ⟨sp, s, rfl, rfl, hf, hn, hl, ?_⟩))))
            cases hj with
            | error e => simp [local_run, hs, hf, hn, hl, runPrelude, handleOutcome]
            | ok r =>
              cases r with
              | error e => simp [local_run, hs, hf, hn, hl, runPrelude, handleOutcome]
              | ok u => simp [local_run, hs, hf, hn, hl, runPrelude, handleOutcome]

/-- A run in which every external call succeeds: the build produces a path,
the secrets file is missing, and the loaded service exits successfully. -/
def envAllOk : RunEnv :=
  RunEnv.mk (Except.ok "lib.so") (Except.error "not found") (fun _ => Except.ok [])
    (fun _ => Except.ok ()) (fun _ => Except.ok ()) (fun _ => Except.ok ())
    (Except.ok (Except.ok ()))

/-- A run in which everything up to and including `loader.load` succeeds but
the loaded service itself fails: `handle.await` resolves to an inner error. -/
def envSvcFail : RunEnv :=
  RunEnv.mk (Except.ok "lib.so") (Except.error "not found") (fun _ => Except.ok [])
    (fun _ => Except.ok ()) (fun _ => Except.ok ()) (fun _ => Except.ok ())
    (Except.ok (Except.error "service failed"))

/-- A run in which `build_crate` fails. -/
def envBuildFail : RunEnv :=
  RunEnv.mk (Except.error "compile error") (Except.error "not found")
    (fun _ => Except.ok []) (fun _ => Except.ok ()) (fun _ => Except.ok ())
    (fun _ => Except.ok ()) (Except.ok (Except.ok ()))

/-- A run in which the secrets file is read successfully but its contents are
not a valid flat string-to-string toml mapping. -/
def envParseFail : RunEnv :=
  RunEnv.mk (Except.ok "lib.so") (Except.ok "not = [valid") (fun _ => Except.error "bad toml")
    (fun _ => Except.ok ()) (fun _ => Except.ok ()) (fun _ => Except.ok ())
    (Except.ok (Except.ok ()))

/-- Once `loader.load` has succeeded, the result of `local_run` is never a
secrets-parse failure. -/
theorem handleOutcome_ne_secretsParse (j : Except String (Except String Unit)) (e : String) :
    handleOutcome j ≠ Except.error (RunError.secretsParse e) := by
  rcases j with e' | r
  · simp [handleOutcome]
  · rcases r with e' | u <;> simp [handleOutcome]

/-- C1: for every local run in which the artifact load succeeds, the release
(close) of the loaded artifact happens only after the service handle has
resolved: whenever the trace records a `close`, the trace ends with
`awaitHandle` immediately followed by `close`, so release is sequenced
strictly after the awaiting of the service handle and never before or
concurrently with it. -/
theorem local_run_release_after_resolution (env : RunEnv) (port : Nat)
    (h : Event.close ∈ (local_run env port).1) :
    ∃ t, (local_run env port).1 = t ++ [Event.awaitHandle, Event.close] := by
  rcases local_run_control_flow env port with
    ⟨e, _, heq⟩ | ⟨sp, e, _, _, heq⟩ | ⟨sp, s, e, _, _, _, heq⟩ |
    ⟨sp, s, e, _, _, _, _, heq⟩ | ⟨sp, s, e, _, _, _, _, _, heq⟩ |
    ⟨sp, s, _, _, _, _, _, heq⟩
  · rw [heq] at h; simp at h
  · rw [heq] at h; simp at h
  · rw [heq] at h; simp at h
  · rw [heq] at h; simp at h
  · rw [heq] at h; simp [runPrelude] at h
  · refine ⟨runPrelude s (SocketAddr.mk Ipv4Addr.LOCALHOST port), ?_⟩
    rw [heq]

/-- Witness for C1 at a concrete successful run. -/
theorem local_run_release_after_resolution_witness :
    Event.close ∈ (local_run envAllOk 8000).1 ∧
      ∃ t, (local_run envAllOk 8000).1 = t ++ [Event.awaitHandle, Event.close] :=
  ⟨by decide, local_run_release_after_resolution envAllOk 8000 (by decide)⟩

/-- C2: for every local run in which the artifact load succeeds (the trace
records the `load` call and it returned a `(handle, so)` pair), the release
of the loaded artifact is performed no matter how the awaited service handle
resolves — `env.handleJoin` is universally quantified, covering success, a
join error and a service error alike.  On success the release is the spawned
`so.close()` (lib.rs line 311); on a failed `handle.await??` the error
propagates and `so` is dropped, which releases the loaded library — in both
cases after the await, so release is not skipped on failure. -/
theorem local_run_release_not_skipped (env : RunEnv) (port : Nat) (a : SocketAddr)
    (hmem : Event.load a ∈ (local_run env port).1)
    (hok : env.loadResult a = Except.ok ()) :
    Event.close ∈ (local_run env port).1 := by
  rcases local_run_control_flow env port with
    ⟨e, _, heq⟩ | ⟨sp, e, _, _, heq⟩ | ⟨sp, s, e, _, _, _, heq⟩ |
    ⟨sp, s, e, _, _, _, _, heq⟩ | ⟨sp, s, e, _, _, _, _, hl, heq⟩ |
    ⟨sp, s, _, _, _, _, _, heq⟩
  · rw [heq] at hmem; simp at hmem
  · rw [heq] at hmem; simp at hmem
  · rw [heq] at hmem; simp at hmem
  · rw [heq] at hmem; simp at hmem
  · rw [heq] at hmem
    simp [runPrelude] at hmem
    rw [hmem] at hok
    rw [hok] at hl
    simp at hl
  · rw [heq]
    simp

/-- Witness for C2 at a concrete run whose loaded service fails: the load
succeeded, the handle resolved with a service error, and the trace still
records the release. -/
theorem local_run_release_not_skipped_witness :
    (Event.load (SocketAddr.mk Ipv4Addr.LOCALHOST 8000) ∈ (local_run envSvcFail 8000).1 ∧
      envSvcFail.loadResult (SocketAddr.mk Ipv4Addr.LOCALHOST 8000) = Except.ok () ∧
      envSvcFail.handleJoin = Except.ok (Except.error "service failed")) ∧
    Event.close ∈ (local_run envSvcFail 8000).1 :=
  ⟨⟨by decide, rfl, rfl⟩,
    local_run_release_not_skipped envSvcFail 8000
      (SocketAddr.mk Ipv4Addr.LOCALHOST 8000) (by decide) rfl⟩

/-- C5: for every local run in which `build_crate` returns an error, the run
aborts surfacing that error as a build failure, and the trace contains no
artifact-load and no service-execution effects: no `Loader::from_so_file`, no
`loader.load`, and no awaiting of a service handle. -/
theorem local_run_build_failure_aborts (env : RunEnv) (port : Nat) (e : String)
    (h : env.buildResult = Except.error e) :
    local_run env port =
      ([Event.spawnPrinter, Event.build], Except.error (RunError.build e)) ∧
    Event.fromSoFile ∉ (local_run env port).1 ∧
    (∀ a, Event.load a ∉ (local_run env port).1) ∧
    Event.awaitHandle ∉ (local_run env port).1 := by
  have heq : local_run env port =
      ([Event.spawnPrinter, Event.build], Except.error (RunError.build e)) := by
    simp [local_run, h]
  refine ⟨heq, ?_, ?_, ?_⟩
  · rw [heq]; simp
  · intro a; rw [heq]; simp
  · rw [heq]; simp

/-- Witness for C5 at a concrete run whose build fails. -/
theorem local_run_build_failure_aborts_witness :
    envBuildFail.buildResult = Except.error "compile error" ∧
      local_run envBuildFail 8000 =
        ([Event.spawnPrinter, Event.build],
          Except.error (RunError.build "compile error")) :=
  ⟨rfl, (local_run_build_failure_aborts envBuildFail 8000 "compile error" rfl).1⟩

/-- C6: secret resolution during a local run.  If reading the secrets file at
the fixed path fails (in particular, the file is absent), the run proceeds
with the empty secret mapping and never aborts with a secrets-parse failure:
any factory the run constructs receives the empty mapping.  If the file is
read but fails to parse as a flat string-to-string mapping, the run aborts
with a secrets-parse failure whose trace stops at the secrets read: no
`Loader::from_so_file` and no `loader.load` occurs. -/
theorem local_run_secrets_contract (env : RunEnv) (port : Nat) :
    (∀ r, env.secretsRead = Except.error r →
      resolveSecrets env.secretsRead env.parseSecrets = Except.ok [] ∧
      (∀ e, (local_run env port).2 ≠ Except.error (RunError.secretsParse e)) ∧
      (∀ s, Event.mkFactory s ∈ (local_run env port).1 → s = [])) ∧
    (∀ sp str e, env.buildResult = Except.ok sp → env.secretsRead = Except.ok str →
      env.parseSecrets str = Except.error e →
      local_run env port =
        ([Event.spawnPrinter, Event.build, Event.readSecrets],
          Except.error (RunError.secretsParse e)) ∧
      Event.fromSoFile ∉ (local_run env port).1 ∧
      (∀ a, Event.load a ∉ (local_run env port).1)) := by
  constructor
  · intro r hr
    have hres : resolveSecrets env.secretsRead env.parseSecrets = Except.ok [] := by
      simp [resolveSecrets, hr]
    refine ⟨hres, ?_, ?_⟩
    · intro e
      rcases local_run_control_flow env port with
        ⟨e', _, heq⟩ | ⟨sp, e', _, hs, heq⟩ | ⟨sp, s, e', _, _, _, heq⟩ |
        ⟨sp, s, e', _, _, _, _, heq⟩ | ⟨sp, s, e', _, _, _, _, _, heq⟩ |
        ⟨sp, s, _, _, _, _, _, heq⟩
      · rw [heq]; simp
      · rw [hres] at hs; simp at hs
      · rw [heq]; simp
      · rw [heq]; simp
      · rw [heq]; simp
      · rw [heq]; exact handleOutcome_ne_secretsParse env.handleJoin e
    · intro s hmem
      rcases local_run_control_flow env port with
        ⟨e', _, heq⟩ | ⟨sp, e', _, hs, heq⟩ | ⟨sp, s', e', _, hs, _, heq⟩ |
        ⟨sp, s', e', _, hs, _, _, heq⟩ | ⟨sp, s', e', _, hs, _, _, _, heq⟩ |
        ⟨sp, s', _, hs, _, _, _, heq⟩
      · rw [heq] at hmem; simp at hmem
      · rw [heq] at hmem; simp at hmem
      · rw [heq] at hmem; simp at hmem
      · rw [hres] at hs
        have hs' : s' = [] := (Except.ok.inj hs).symm
        rw [heq] at hmem
        simp [hs'] at hmem
        exact hmem
      · rw [hres] at hs
        have hs' : s' = [] := (Except.ok.inj hs).symm
        rw [heq] at hmem
        simp [runPrelude, hs'] at hmem
        exact hmem
      · rw [hres] at hs
        have hs' : s' = [] := (Except.ok.inj hs).symm
        rw [heq] at hmem
        simp [runPrelude, hs'] at hmem
        exact hmem
  · intro sp str e hb hsr hp
    have heq : local_run env port =
        ([Event.spawnPrinter, Event.build, Event.readSecrets],
          Except.error (RunError.secretsParse e)) := by
      simp [local_run, hb, resolveSecrets, hsr, hp]
    refine ⟨heq, ?_, ?_⟩
    · rw [heq]; simp
    · intro a; rw [heq]; simp

/-- Witness for C6: part one at a run whose secrets file is missing, part
two at a run whose secrets file reads but does not parse. -/
theorem local_run_secrets_contract_witness :
    (resolveSecrets envAllOk.secretsRead envAllOk.parseSecrets = Except.ok [] ∧
      (∀ e, (local_run envAllOk 8000).2 ≠ Except.error (RunError.secretsParse e)) ∧
      (∀ s, Event.mkFactory s ∈ (local_run envAllOk 8000).1 → s = [])) ∧
    local_run envParseFail 8000 =
      ([Event.spawnPrinter, Event.build, Event.readSecrets],
        Except.error (RunError.secretsParse "bad toml")) :=
  ⟨(local_run_secrets_contract envAllOk 8000).1 "not found" rfl,
    ((local_run_secrets_contract envParseFail 8000).2 "lib.so" "not = [valid"
      "bad toml" rfl rfl rfl).1⟩

/-- C9: for every local run whose trace records a `loader.load` call, the
bind address handed to the loader is exactly the IPv4 loopback address paired
with the caller-supplied port, and the trace up to that call consists of the
build, the secrets read, `Loader::from_so_file`, the factory construction and
the address construction, in that order — so the factory and address are
fully constructed before the artifact is loaded, and the service handle
(never part of that initial segment) is awaited only afterwards. -/
theorem local_run_bind_addr (env : RunEnv) (port : Nat) (a : SocketAddr)
    (h : Event.load a ∈ (local_run env port).1) :
    a = SocketAddr.mk Ipv4Addr.LOCALHOST port ∧
    ∃ s rest, (local_run env port).1 = runPrelude s a ++ rest ∧
      Event.awaitHandle ∉ runPrelude s a := by
  rcases local_run_control_flow env port with
    ⟨e, _, heq⟩ | ⟨sp, e, _, _, heq⟩ | ⟨sp, s, e, _, _, _, heq⟩ |
    ⟨sp, s, e, _, _, _, _, heq⟩ | ⟨sp, s, e, _, _, _, _, _, heq⟩ |
    ⟨sp, s, _, _, _, _, _, heq⟩
  · rw [heq] at h; simp at h
  · rw [heq] at h; simp at h
  · rw [heq] at h; simp at h
  · rw [heq] at h; simp at h
  · rw [heq] at h
    simp [runPrelude] at h
    subst h
    refine ⟨rfl, s, [], ?_, by simp [runPrelude]⟩
    rw [heq]
    simp
  · rw [heq] at h
    simp [runPrelude] at h
    subst h
    refine ⟨rfl, s, [Event.awaitHandle, Event.close], ?_, by simp [runPrelude]⟩
    rw [heq]

/-- Witness for C9 at a concrete successful run on port 9999. -/
theorem local_run_bind_addr_witness :
    Event.load (SocketAddr.mk Ipv4Addr.LOCALHOST 9999) ∈ (local_run envAllOk 9999).1 ∧
      SocketAddr.mk Ipv4Addr.LOCALHOST 9999 = SocketAddr.mk Ipv4Addr.LOCALHOST 9999 ∧
      ∃ s rest, (local_run envAllOk 9999).1 =
          runPrelude s (SocketAddr.mk Ipv4Addr.LOCALHOST 9999) ++ rest ∧
        Event.awaitHandle ∉ runPrelude s (SocketAddr.mk Ipv4Addr.LOCALHOST 9999) :=
  ⟨by decide,
    local_run_bind_addr envAllOk 9999 (SocketAddr.mk Ipv4Addr.LOCALHOST 9999) (by decide)⟩

/-- C10: every failure of the secrets-file read — absence or any other read
error — is treated identically to a missing file: resolution yields the empty
mapping, no error.  Dually, whenever a local run aborts with a secrets-parse
failure, the file's contents were read successfully and it was exactly the
parse that failed. -/
theorem secrets_read_failure_like_missing (env : RunEnv) (port : Nat) :
    (∀ e, env.secretsRead = Except.error e →
      resolveSecrets env.secretsRead env.parseSecrets = Except.ok []) ∧
    (∀ e, (local_run env port).2 = Except.error (RunError.secretsParse e) →
      ∃ str, env.secretsRead = Except.ok str ∧ env.parseSecrets str = Except.error e) := by
  constructor
  · intro e he
    simp [resolveSecrets, he]
  · intro e hres
    rcases local_run_control_flow env port with
      ⟨e', _, heq⟩ | ⟨sp, e', _, hs, heq⟩ | ⟨sp, s, e', _, _, _, heq⟩ |
      ⟨sp, s, e', _, _, _, _, heq⟩ | ⟨sp, s, e', _, _, _, _, _, heq⟩ |
      ⟨sp, s, _, _, _, _, _, heq⟩
    · rw [heq] at hres; simp at hres
    · rw [heq] at hres
      simp at hres
      subst hres
      unfold resolveSecrets at hs
      cases hsr : env.secretsRead with
      | error r => rw [hsr] at hs; simp at hs
      | ok str =>
        rw [hsr] at hs
        exact ⟨str, rfl, hs⟩
    · rw [heq] at hres; simp at hres
    · rw [heq] at hres; simp at hres
    · rw [heq] at hres; simp at hres
    · rw [heq] at hres
      exact absurd hres (handleOutcome_ne_secretsParse env.handleJoin e)

/-- Witness for C10: a read failure resolves to the empty mapping, and the
concrete parse-failure run aborts because the read succeeded and the parse
failed. -/
theorem secrets_read_failure_like_missing_witness :
    resolveSecrets envSvcFail.secretsRead envSvcFail.parseSecrets = Except.ok [] ∧
      ∃ str, envParseFail.secretsRead = Except.ok str ∧
        envParseFail.parseSecrets str = Except.error "bad toml" :=
  ⟨(secrets_read_failure_like_missing envSvcFail 8000).1 "not found" rfl,
    (secrets_read_failure_like_missing envParseFail 8000).2 "bad toml" rfl⟩

/-- C3: the deploy outcome classification.  A summary with no current
deployment yields `DeploymentFailure`; a current deployment whose id differs
from the submitted id yields `DeploymentFailure` regardless of its state; a
matching id in state `Crashed` yields `DeploymentFailure`; a matching id in
any non-Crashed state yields `Ok`. -/
theorem deploy_classify_outcomes (deploymentId : Nat) :
    (deploy_classify deploymentId (ServiceSummary.mk none)).2 =
      CommandOutcome.DeploymentFailure ∧
    (∀ i st, i ≠ deploymentId →
      (deploy_classify deploymentId
        (ServiceSummary.mk (some (Deployment.mk i st)))).2 =
          CommandOutcome.DeploymentFailure) ∧
    (deploy_classify deploymentId
      (ServiceSummary.mk (some (Deployment.mk deploymentId State.Crashed)))).2 =
        CommandOutcome.DeploymentFailure ∧
    (∀ st, st ≠ State.Crashed →
      (deploy_classify deploymentId
        (ServiceSummary.mk (some (Deployment.mk deploymentId st)))).2 =
          CommandOutcome.Ok) := by
  refine ⟨rfl, ?_, ?_, ?_⟩
  · intro i st hne
    simp [deploy_classify, hne]
  · simp [deploy_classify]
  · intro st hne
    cases st <;> simp_all [deploy_classify]

/-- Witness for C3: all four branches at concrete inputs. -/
theorem deploy_classify_outcomes_witness :
    (deploy_classify 7 (ServiceSummary.mk none)).2 = CommandOutcome.DeploymentFailure ∧
    (deploy_classify 7 (ServiceSummary.mk (some (Deployment.mk 3 State.Running)))).2 =
      CommandOutcome.DeploymentFailure ∧
    (deploy_classify 7 (ServiceSummary.mk (some (Deployment.mk 7 State.Crashed)))).2 =
      CommandOutcome.DeploymentFailure ∧
    (deploy_classify 7 (ServiceSummary.mk (some (Deployment.mk 7 State.Running)))).2 =
      CommandOutcome.Ok :=
  ⟨(deploy_classify_outcomes 7).1,
    (deploy_classify_outcomes 7).2.1 3 State.Running (by decide),
    (deploy_classify_outcomes 7).2.2.1,
    (deploy_classify_outcomes 7).2.2.2 State.Running (by decide)⟩

/-- C4 counterexample: with no current deployment in the fetched summary, the
deploy command reports `DeploymentFailure` without having printed the latest
known service summary — it prints only the fixed not-running message — so the
summary is not printed in every `DeploymentFailure` branch. -/
theorem deploy_failure_summary_print_cex :
    (deploy_classify 0 (ServiceSummary.mk none)).2 = CommandOutcome.DeploymentFailure ∧
    DeployPrint.summary (ServiceSummary.mk none) ∉ (deploy_classify 0 (ServiceSummary.mk none)).1 ∧
    (deploy_classify 0 (ServiceSummary.mk none)).1 = [DeployPrint.notRunning] := by
  decide

/-- C4 amended: the deploy command prints the latest known service summary
before reporting the outcome exactly when the summary's current deployment id
matches the submitted id — covering the Crashed branch that yields
`DeploymentFailure` — while the no-current-deployment and id-mismatch
`DeploymentFailure` branches print a fixed explanatory message instead of the
summary. -/
theorem deploy_failure_summary_print (deploymentId : Nat) (s : ServiceSummary) :
    (∀ d, s.deployment = some d → d.id = deploymentId →
      (deploy_classify deploymentId s).1 = [DeployPrint.summary s]) ∧
    (∀ d, s.deployment = some d → d.id ≠ deploymentId →
      (deploy_classify deploymentId s).1 = [DeployPrint.keptPrevious]) ∧
    (s.deployment = none →
      (deploy_classify deploymentId s).1 = [DeployPrint.notRunning]) := by
  refine ⟨?_, ?_, ?_⟩
  · intro d hd hid
    simp [deploy_classify, hd, hid]
  · intro d hd hid
    simp [deploy_classify, hd, hid]
  · intro hd
    simp [deploy_classify, hd]

/-- Witness for the amended C4 at concrete summaries. -/
theorem deploy_failure_summary_print_witness :
    (deploy_classify 7 (ServiceSummary.mk (some (Deployment.mk 7 State.Crashed)))).1 =
      [DeployPrint.summary (ServiceSummary.mk (some (Deployment.mk 7 State.Crashed)))] ∧
    (deploy_classify 7 (ServiceSummary.mk (some (Deployment.mk 3 State.Running)))).1 =
      [DeployPrint.keptPrevious] ∧
    (deploy_classify 7 (ServiceSummary.mk none)).1 = [DeployPrint.notRunning] :=
  ⟨(deploy_failure_summary_print 7
      (ServiceSummary.mk (some (Deployment.mk 7 State.Crashed)))).1
        (Deployment.mk 7 State.Crashed) rfl rfl,
    (deploy_failure_summary_print 7
      (ServiceSummary.mk (some (Deployment.mk 3 State.Running)))).2.1
        (Deployment.mk 3 State.Running) rfl (by decide),
    (deploy_failure_summary_print 7 (ServiceSummary.mk none)).2.2 rfl⟩

/-- Concatenation property of the printer loop: the lines printed for a
sequence of messages are the lines for its parts, in order. -/
theorem printerLoop_append (ms₁ ms₂ : List Message) :
    printerLoop (ms₁ ++ ms₂) = printerLoop ms₁ ++ printerLoop ms₂ := by
  induction ms₁ with
  | nil => rfl
  | cons m rest ih => simp [printerLoop, ih]

/-- C7: the build-relay consumer prints text lines and rendered compiler
diagnostics in production order (printing distributes over concatenation and
each message contributes its own lines at its own position), silently ignores
a diagnostic without a rendered string and any other message variant
(contributing nothing and raising no error — the loop is total), and
terminates once the channel is closed, observing nothing beyond the messages
produced before the close. -/
theorem printerLoop_ordered_and_ignoring :
    (∀ ms₁ ms₂ : List Message,
      printerLoop (ms₁ ++ ms₂) = printerLoop ms₁ ++ printerLoop ms₂) ∧
    (∀ line rest, printerLoop (Message.TextLine line :: rest) =
      line :: printerLoop rest) ∧
    (∀ r rest, printerLoop (Message.CompilerMessage (some r) :: rest) =
      r :: printerLoop rest) ∧
    (∀ rest, printerLoop (Message.CompilerMessage none :: rest) = printerLoop rest) ∧
    (∀ rest, printerLoop (Message.Other :: rest) = printerLoop rest) ∧
    printerLoop [] = [] :=
  ⟨printerLoop_append, fun _ _ => rfl, fun _ _ => rfl, fun _ => rfl, fun _ => rfl, rfl⟩

/-- C8: the deploy outcome classification is a deterministic function of the
submitted deployment id and the fetched summary: the fetch-and-classify step
run twice against an unchanged remote summary yields the same outcome both
times. -/
theorem fetchAndClassifyTwice_same (remote : ServiceSummary) (deploymentId : Nat) :
    (fetchAndClassifyTwice remote deploymentId).1 =
      (fetchAndClassifyTwice remote deploymentId).2 :=
  rfl
